import Mathlib

/-!
Verification development for the android-file-transfer MTP client.

Shallow embedding of the parts of the code base that the specification's
claims are about:

* `src/cli/set_zune_guid_aftl.cpp` — PTP string encoding (`EncodeGuidAsUtf16`);
* `src/mtp/backend/windows/usb/Device.cpp` — bulk read / bulk write paths;
* `src/cli/Session.cpp` — CLI wireless provisioning (`EnableWireless`,
  `SetWiFiNetwork`) and the 324-byte Wi-Fi configuration buffer;
* `src/mtp/metadata/Library.cpp` — the media library layer (artists, albums,
  tracks, GUID parsing, folder creation on construction).

Machine integers are modelled as `Nat` with explicit `% 256` where the code
narrows to `u8`.  Device / session operations whose implementation is not
part of the analysed sources (mtp::Session, the USB host controller) are
modelled from the specification; each such definition carries a doc comment
saying so.
-/

set_option maxRecDepth 8000

namespace AFTL

/-! ### PTP string encoding

`EncodeGuidAsUtf16` in `src/cli/set_zune_guid_aftl.cpp` (lines 40-58):
one `u8` char count including the terminating NUL, then one UTF-16LE code
unit (`[c, 0]`) per input character, then a two-byte NUL terminator.
`Session::SetDeviceProp` in `src/cli/Session.cpp` (lines 1202-1214) builds
the same byte sequence inline.  Characters are pushed into a byte array, so
both the count and each character are narrowed to `u8`. -/
def encodePtpString (s : List Nat) : List Nat :=
  (s.length + 1) % 256 :: (s.flatMap fun c => [c % 256, 0]) ++ [0, 0]

/-! ### Windows USB bulk transport -/

/-- Modelled from the spec: the host controller splits one bulk pipe write
into wire packets of at most `maxPacket` bytes (§4.A: "All bulk transfers
are multiples of `MAX_PACKET` except the final packet of a phase").  No
packet beyond the data itself is generated.  The fuel argument only bounds
the recursion; `w.length` steps always suffice for a positive packet size. -/
def chunksOfAux (maxPacket : Nat) : Nat → List Nat → List (List Nat)
  | 0, _ => []
  | _, [] => []
  | fuel + 1, w => w.take maxPacket :: chunksOfAux maxPacket fuel (w.drop maxPacket)

/-- The wire packets of a pipe write, split at `maxPacket`. -/
def chunksOf (maxPacket : Nat) (w : List Nat) : List (List Nat) :=
  chunksOfAux maxPacket w.length w

/-- Modelled from the spec: a WinUSB pipe write of `n` bytes puts `⌈n / maxPacket⌉`
packets on the wire; an explicit zero-length pipe write puts a single
zero-length packet on the wire.  The `SHORT_PACKET_TERMINATE` pipe policy is
never enabled by the code, so no additional ZLP is appended. -/
def wirePacketsOfWrite (maxPacket : Nat) (w : List Nat) : List (List Nat) :=
  if w = [] then [[]] else chunksOf maxPacket w

/-- `Device::WriteBulk` in `src/mtp/backend/windows/usb/Device.cpp`
(lines 97-138): the whole input stream is read into one buffer and submitted
as a single `WinUsb_WritePipe` call of exactly `data.size()` bytes.  The
wire-level packet sequence of the transfer is the packetisation of that one
pipe write. -/
def writeBulkWire (maxPacket : Nat) (data : List Nat) : List (List Nat) :=
  wirePacketsOfWrite maxPacket data

/-- `Device::ReadBulk` in `src/mtp/backend/windows/usb/Device.cpp`
(lines 140-185): a do/while loop that issues `WinUsb_ReadPipe` into a buffer
of `bufSize` bytes, appends any received bytes to the output stream, and
continues while a read fills the whole buffer.  A read returns
`min bufSize remaining` bytes of the remaining data phase (modelled from the
spec, §4.B: the device delivers the advertised data phase continuously and
terminates it with a short or zero-length packet).  The result is the byte
sequence written to the output stream. -/
def readBulkAux (bufSize : Nat) : Nat → List Nat → List Nat
  | 0, _ => []
  | fuel + 1, payload =>
    if (payload.take bufSize).length = bufSize then
      payload.take bufSize ++ readBulkAux bufSize fuel (payload.drop bufSize)
    else payload.take bufSize

/-- The bulk-read loop; `payload.length + 1` iterations always suffice for a
positive buffer size, so the fuel never runs out. -/
def readBulkLoop (bufSize : Nat) (payload : List Nat) : List Nat :=
  readBulkAux bufSize (payload.length + 1) payload

/-! ### CLI wireless provisioning (`src/cli/Session.cpp`) -/

/-- Little-endian serialisation of a `u32` inserted byte-wise into the
configuration buffer (`configData.insert(..., (u8*)&x, (u8*)&x + 4)`). -/
def le32 (x : Nat) : List Nat :=
  [x % 256, x / 256 % 256, x / 65536 % 256, x / 16777216 % 256]

/-- The Wi-Fi configuration buffer built by `Session::SetWiFiNetwork`
(`src/cli/Session.cpp` lines 1387-1439): profile id 1, SSID length capped at
32, the SSID null-padded to 32 bytes, six flag words (the first three come
from the scan-data extraction at lines 1354-1385 or default to
`1, 7, 4`; their values are opaque here), a password length of 128, the
128-byte RSA-encrypted password, then zero padding up to 324 bytes. -/
def buildWiFiConfig (ssid : List Nat) (f0 f1 f2 : Nat) (encPwd : List Nat) : List Nat :=
  let ssidLen := min ssid.length 32
  let ssidBytes := ssid.take ssidLen ++ List.replicate (32 - ssidLen) 0
  let base := le32 1 ++ le32 ssidLen ++ ssidBytes ++
    le32 f0 ++ le32 f1 ++ le32 f2 ++ le32 1 ++ le32 0 ++ le32 0 ++
    le32 128 ++ encPwd
  base ++ List.replicate (324 - base.length) 0

/-- One MTP operation issued by the CLI session over USB. -/
inductive UsbOp where
  | enableWirelessSync
  | op922b (a b c : Nat)
  | getWiFiNetworkList
  | op9224
  | setWiFiConfiguration (data : List Nat)
  | op9228 (p : Nat)
  | getDeviceProp (code : Nat)
deriving DecidableEq, Repr

/-- The key-bundle state visible to the CLI session: `none` models a null
`_trustedApp` pointer, `some b` models a `TrustedApp` whose `KeysLoaded()`
returns `b`. -/
def KeyState : Type := Option Bool

/-- `Session::EnableWireless` (`src/cli/Session.cpp` lines 1226-1247): issues
the vendor operations `0x9230` and `0x922b(3,1,0)` inside a try block.  It
never consults `_trustedApp` or `KeysLoaded()`, so the USB operation trace is
the same whatever the key state. -/
def cliEnableWireless (_keys : Option Bool) : List UsbOp :=
  [UsbOp.enableWirelessSync, UsbOp.op922b 3 1 0]

/-- `Session::SetWiFiNetwork` (`src/cli/Session.cpp` lines 1337-1486): returns
early (no USB traffic) unless `_trustedApp` is non-null and
`KeysLoaded()` holds; otherwise scans for networks, encrypts the password
(`encPwd`, produced by `TrustedApp::EncryptWiFiPassword`, whose
implementation is outside the analysed sources and is passed as a
parameter), throws if the ciphertext is not 128 bytes, and otherwise sends
the configuration followed by the post-configuration operations.  `f0 f1 f2`
are the security flags extracted from the scan data (lines 1354-1385). -/
def cliSetWiFiNetwork (keys : Option Bool) (ssid : List Nat) (f0 f1 f2 : Nat)
    (encPwd : List Nat) : List UsbOp :=
  match keys with
  | none => []
  | some false => []
  | some true =>
    UsbOp.getWiFiNetworkList ::
      (if encPwd.length = 128 then
        [UsbOp.op9224,
         UsbOp.setWiFiConfiguration (buildWiFiConfig ssid f0 f1 f2 encPwd),
         UsbOp.op9228 0, UsbOp.op9228 2, UsbOp.op9228 2, UsbOp.op9228 2,
         UsbOp.getDeviceProp 0xd217, UsbOp.getDeviceProp 0xd217]
      else [])

/-! ### GUID parsing (`src/mtp/metadata/Library.cpp`)

`Library::CreateArtist` (lines 216-247) and `Library::UpdateArtistGuid`
(lines 362-395) turn a textual GUID such as
`45a663b5-b1cb-4a91-bff6-2bef7bbfdd76` into 16 bytes with the first three
components byte-reversed. -/

/-- Dash removal: `hex.erase(std::remove(hex.begin(), hex.end(), '-'), hex.end())`
keeps every non-dash character in order. -/
def stripDashes (s : String) : List Char :=
  s.toList.filter fun c => c ≠ '-'

/-- Value of one hexadecimal digit, as `std::stoul(_, nullptr, 16)` reads it.
Characters outside `0-9a-fA-F` do not occur under the claims' hypotheses. -/
def hexVal (c : Char) : Nat :=
  if c.toNat ≥ 48 ∧ c.toNat ≤ 57 then c.toNat - 48
  else if c.toNat ≥ 97 ∧ c.toNat ≤ 102 then c.toNat - 97 + 10
  else if c.toNat ≥ 65 ∧ c.toNat ≤ 70 then c.toNat - 65 + 10
  else 0

/-- `std::stoul(hex.substr(2*i, 2), nullptr, 16)`: the byte written as the
`i`-th pair of hex digits. -/
def byteAt (hex : List Char) (i : Nat) : Nat :=
  16 * hexVal (hex.getD (2 * i) '0') + hexVal (hex.getD (2 * i + 1) '0')

/-- The 16 GUID bytes exactly as the four assignment loops fill `artist->Guid`:
`Guid[3-i] = byte i` (i = 3..0), `Guid[4+(1-i)] = byte (4+i)` (i = 1..0),
`Guid[6+(1-i)] = byte (6+i)` (i = 1..0), `Guid[8+i] = byte (8+i)` (i = 0..7). -/
def parseGuidBytes (hex : List Char) : List Nat :=
  [byteAt hex 3, byteAt hex 2, byteAt hex 1, byteAt hex 0,
   byteAt hex 5, byteAt hex 4,
   byteAt hex 7, byteAt hex 6,
   byteAt hex 8, byteAt hex 9, byteAt hex 10, byteAt hex 11,
   byteAt hex 12, byteAt hex 13, byteAt hex 14, byteAt hex 15]

/-- The `Guid` field produced by `Library::CreateArtist`: starts empty, filled
only when a GUID string is given and its dash-stripped form has exactly 32
characters (lines 217-247). -/
def createArtistGuid (guid : String) : List Nat :=
  if guid = "" then []
  else if (stripDashes guid).length = 32 then parseGuidBytes (stripDashes guid)
  else []

/-- `Library::UpdateArtistGuid` (lines 350-405): returns the artist's `Guid`
unchanged when the GUID string is empty or its dash-stripped form is not 32
characters; otherwise overwrites it with the parsed 16 bytes. -/
def updateArtistGuidBytes (old : List Nat) (guid : String) : List Nat :=
  if guid = "" then old
  else if (stripDashes guid).length = 32 then parseGuidBytes (stripDashes guid)
  else old

/-! ### The device object graph

The `mtp::Session` implementation is not among the analysed sources; the
object-graph semantics of the operations the Library invokes are modelled
from the specification (§3 data model, §4.C object-graph semantics).  The
model is single-storage: the Library always passes its one `_storage` id. -/

/-- Object formats the Library distinguishes. -/
inductive DevFormat where
  | assoc | artist | album | track | other
deriving DecidableEq, Repr

/-- One object on the device, with the properties the Library reads:
`ObjectFilename`, `Name`, `Artist` (the artist string a device materialises
for an album, also when it was created by `ArtistId`), the Zune GUID
property `0xDA97` (empty list = property absent) and the `Track` index. -/
structure DevObject where
  id : Nat
  parent : Option Nat
  format : DevFormat
  filename : String
  name : String := ""
  artistName : String := ""
  guid : List Nat := []
  trackIdx : Nat := 0
deriving DecidableEq, Repr

/-- Modelled from the spec: device state.  `parent = none` is the root;
object handles are assigned from the monotone counter `nextId`; `objRefs`
is the per-object reference list written by `SetObjectReferences` (the
newest entry for an id shadows older ones). -/
structure Device where
  nextId : Nat := 1
  storages : List Nat := [1]
  objects : List DevObject := []
  objRefs : List (Nat × List Nat) := []
  artistFormatSupported : Bool := false
  dateAuthoredSupported : Bool := false
  coverSupported : Bool := false
deriving DecidableEq, Repr

/-- First value bound to a key in an association list (the lookup order of
`std::unordered_map`, whose `insert` keeps the first entry per key). -/
def findVal {α β : Type} [DecidableEq α] (l : List (α × β)) (k : α) : Option β :=
  (l.find? fun p => p.1 = k).map Prod.snd

/-- Modelled from the spec: `GetObjectHandles(storage, Association, parent)`
returns the association children of `parent`, in device order. -/
def Device.assocChildren (d : Device) (parent : Option Nat) : List DevObject :=
  d.objects.filter fun o => o.parent = parent ∧ o.format = DevFormat.assoc

/-- Modelled from the spec: the device materialises one new object and
advances its handle counter. -/
def Device.addObj (d : Device) (x : DevObject) : Device :=
  { d with nextId := d.nextId + 1, objects := d.objects ++ [x] }

/-- Modelled from the spec: `Session::CreateDirectory(name, parent, storage)`
creates an association named `name` under `parent` and returns its fresh
ObjectId. -/
def Device.createDir (d : Device) (name : String) (parent : Option Nat) :
    Nat × Device :=
  (d.nextId,
   d.addObj
     { id := d.nextId, parent := parent, format := DevFormat.assoc,
       filename := name, name := name })

/-- The object properties a `SendObjectPropList` call carries, semantically. -/
structure PropSet where
  name : String := ""
  filename : String := ""
  artistName : String := ""
  artistId : Nat := 0
  guid : List Nat := []
  trackIdx : Nat := 0
deriving DecidableEq, Repr

/-- Modelled from the spec: `SendObjectPropList` creates one object of the
given format under `parent` with the supplied properties and responds with
its fresh ObjectId (§4.C: "response yields new ObjectId"). -/
def Device.sendObjectPropList (d : Device) (parent : Option Nat)
    (format : DevFormat) (props : PropSet) : Nat × Device :=
  (d.nextId,
   d.addObj
     { id := d.nextId, parent := parent, format := format,
       filename := props.filename, name := props.name,
       artistName := props.artistName, guid := props.guid,
       trackIdx := props.trackIdx })

/-- The object with the given handle, if any. -/
def Device.findObj (d : Device) (i : Nat) : Option DevObject :=
  d.objects.find? fun o => o.id = i

/-- Modelled from the spec: `GetObjectStringProperty(id, ObjectProperty::Name)`. -/
def Device.objName (d : Device) (i : Nat) : String :=
  ((d.findObj i).map DevObject.name).getD ""

/-- Modelled from the spec: `GetObjectIntegerProperty(id, ObjectProperty::Track)`. -/
def Device.objTrackIdx (d : Device) (i : Nat) : Nat :=
  ((d.findObj i).map DevObject.trackIdx).getD 0

/-- Modelled from the spec: `GetObjectReferences` returns the current
reference list of the object (empty when none was ever set). -/
def Device.getObjectReferences (d : Device) (i : Nat) : List Nat :=
  (findVal d.objRefs i).getD []

/-- Modelled from the spec: `SetObjectReferences` replaces the object's
reference list. -/
def Device.setObjectReferences (d : Device) (i : Nat) (refs : List Nat) :
    Device :=
  { d with objRefs := (i, refs) :: d.objRefs }

/-- `ListAssociations(parentId)` (`Library.cpp` lines 20-30): the
name-to-ObjectId map of the associations under `parentId`, keyed by
`ObjectFilename` (`std::unordered_map` keeps the first entry per name). -/
def Device.listAssociations (d : Device) (parentId : Nat) :
    List (String × Nat) :=
  (d.assocChildren (some parentId)).map fun o => (o.filename, o.id)

/-- Number of artist-format objects on the device. -/
def Device.artistObjCount (d : Device) : Nat :=
  (d.objects.filter fun o => o.format = DevFormat.artist).length

/-- Device well-formedness: a storage exists and every object id is a
nonzero handle below the allocation counter. -/
def Device.Wf (d : Device) : Prop :=
  d.storages ≠ [] ∧ 1 ≤ d.nextId ∧ ∀ o ∈ d.objects, 1 ≤ o.id ∧ o.id < d.nextId

instance (d : Device) : Decidable d.Wf :=
  inferInstanceAs (Decidable (d.storages ≠ [] ∧ 1 ≤ d.nextId ∧
    ∀ o ∈ d.objects, 1 ≤ o.id ∧ o.id < d.nextId))

/-- An association named `n` at device root. -/
def Device.hasRootAssoc (d : Device) (n : String) : Prop :=
  ∃ o ∈ d.objects, o.parent = none ∧ o.format = DevFormat.assoc ∧ o.filename = n

instance (d : Device) (n : String) : Decidable (d.hasRootAssoc n) :=
  inferInstanceAs (Decidable (∃ o ∈ d.objects,
    o.parent = none ∧ o.format = DevFormat.assoc ∧ o.filename = n))

/-! ### The media library (`src/mtp/metadata/Library.cpp`) -/

/-- Sentinel substituted for an empty artist name (`Library.cpp` line 15). -/
def UknownArtist : String := "UknownArtist"

/-- Sentinel substituted for an empty album name (`Library.cpp` line 16). -/
def UknownAlbum : String := "UknownAlbum"

/-- `Library::Artist` (`Library.h`): `Id` is `ObjectId()` (that is, 0) when
the device does not support artist objects. -/
structure ArtistRec where
  id : Nat := 0
  musicFolderId : Nat := 0
  name : String := ""
  guid : List Nat := []
deriving DecidableEq, Repr

/-- `Library::Album` (`Library.h`).  `artist` is the arena index of the
owning `ArtistRec` (shared-pointer identity).  The `Year` field is omitted:
no claim depends on it and its computation (`ConvertDateTime`) is outside
the analysed sources. -/
structure AlbumRec where
  id : Nat := 0
  musicFolderId : Nat := 0
  artist : Nat := 0
  name : String := ""
  refsLoaded : Bool := false
  refs : List Nat := []
  tracks : List (String × Nat) := []
deriving DecidableEq, Repr

/-- `Library::NewTrackInfo`. -/
structure NewTrackInfo where
  id : Nat
  name : String
  index : Nat
deriving DecidableEq, Repr

/-- The Library state.  `std::shared_ptr` identity of artist and album
records is modelled by arenas: a record lives at a fixed arena index and the
name maps store indices.  `_artists.insert` / `_albums.insert` keep the
first entry per key, which `findVal` reproduces. -/
structure Library where
  artistsFolder : Nat := 0
  albumsFolder : Nat := 0
  musicFolder : Nat := 0
  artistSupported : Bool := false
  albumDateAuthoredSupported : Bool := false
  albumCoverSupported : Bool := false
  artistArena : List ArtistRec := []
  artists : List (String × Nat) := []
  albumArena : List AlbumRec := []
  albums : List ((Nat × String) × Nat) := []
deriving DecidableEq, Repr

/-- A `CreateDirectory(name, parent)` call issued to the device
(`parent = none` is `Session::Root`). -/
abbrev DirEvent := String × Option Nat

/-- `Library::GetOrCreate` (lines 32-42): scan the association children of
`parentId` for one whose `ObjectFilename` equals `name`; create the
directory only when none matches. -/
def Library.GetOrCreate (d : Device) (parentId : Nat) (name : String) :
    Nat × Device × List DirEvent :=
  match (d.assocChildren (some parentId)).find? (fun o => name = o.filename) with
  | some o => (o.id, d, [])
  | none =>
    let r := d.createDir name (some parentId)
    (r.1, r.2, [(name, some parentId)])

/-- `Library::GetArtist` (lines 197-204): empty names are replaced by the
`UknownArtist` sentinel before the cache lookup; a missing entry is a null
pointer (`none`). -/
def Library.GetArtist (lib : Library) (name0 : String) : Option Nat :=
  let name := if name0 = "" then UknownArtist else name0
  findVal lib.artists name

/-- Result of `Library::CreateArtist`: the returned record and its arena
index, the updated library and device, and the `CreateDirectory` calls
issued. -/
structure CreateArtistRes where
  ref : Nat
  artist : ArtistRec
  lib : Library
  dev : Device
  trace : List DirEvent
deriving DecidableEq, Repr

/-- `Library::CreateArtist` (lines 207-348).  The empty name is replaced by
the sentinel; the music folder comes from `GetOrCreate`; the GUID string is
parsed as in `createArtistGuid`; when the device supports artist objects a
new artist object is created unconditionally via `SendObjectPropList`
(filename `name + ".art"`; the GUID path sends the same object plus
non-mutating queries), otherwise the record keeps `Id = 0`.  The new record
is always returned; `_artists.insert` keeps any earlier entry for the name. -/
def Library.CreateArtist (lib : Library) (d : Device) (name0 : String)
    (guid : String) : CreateArtistRes :=
  let name := if name0 = "" then UknownArtist else name0
  let mr := Library.GetOrCreate d lib.musicFolder name
  let g := createArtistGuid guid
  let ad :=
    if lib.artistSupported then
      mr.2.1.sendObjectPropList (some lib.artistsFolder) DevFormat.artist
        { name := name, filename := name ++ ".art", guid := g }
    else (0, mr.2.1)
  let arec : ArtistRec :=
    { id := ad.1, musicFolderId := mr.1, name := name, guid := g }
  { ref := lib.artistArena.length,
    artist := arec,
    lib :=
      { lib with
        artistArena := lib.artistArena ++ [arec],
        artists :=
          if (findVal lib.artists name).isSome then lib.artists
          else lib.artists ++ [(name, lib.artistArena.length)] },
    dev := ad.2,
    trace := mr.2.2 }

/-- `Library::GetAlbum` (lines 437-444): empty album names are replaced by
the `UknownAlbum` sentinel; the cache key is the artist pointer paired with
the name (a null artist finds nothing, as no null key is ever inserted). -/
def Library.GetAlbum (lib : Library) (artist : Option Nat) (name0 : String) :
    Option Nat :=
  let name := if name0 = "" then UknownAlbum else name0
  match artist with
  | none => none
  | some aref => findVal lib.albums (aref, name)

/-- Result of `Library::CreateAlbum`. -/
structure CreateAlbumRes where
  ref : Nat
  album : AlbumRec
  lib : Library
  dev : Device
  trace : List DirEvent
deriving DecidableEq, Repr

/-- `Library::CreateAlbum` (lines 446-517): throws on a null artist
(`none` result); substitutes the `UknownAlbum` sentinel for an empty name;
sends a property list carrying either `ArtistId` (when artist objects are
supported) or the artist name string, plus `Name` and
`ObjectFilename = artist + "--" + name + ".alb"` (the optional
`DateAuthored` property only carries the year, which no claim depends on);
the album folder comes from `GetOrCreate` under the artist's music folder. -/
def Library.CreateAlbum (lib : Library) (d : Device) (artist : Option Nat)
    (name0 : String) (year : Nat) : Option CreateAlbumRes :=
  match artist with
  | none => none
  | some aref =>
    let name := if name0 = "" then UknownAlbum else name0
    let arec := lib.artistArena[aref]?.getD {}
    let mr := Library.GetOrCreate d arec.musicFolderId name
    let ad := mr.2.1.sendObjectPropList (some lib.albumsFolder) DevFormat.album
      { name := name,
        filename := arec.name ++ "--" ++ name ++ ".alb",
        artistName := arec.name,
        artistId := if lib.artistSupported then arec.id else 0 }
    let alb : AlbumRec :=
      { id := ad.1, musicFolderId := mr.1, artist := aref, name := name }
    some
      { ref := lib.albumArena.length,
        album := alb,
        lib :=
          { lib with
            albumArena := lib.albumArena ++ [alb],
            albums :=
              if (findVal lib.albums (aref, name)).isSome then lib.albums
              else lib.albums ++ [((aref, name), lib.albumArena.length)] },
        dev := ad.2,
        trace := mr.2.2 }

/-- Insertion into an `std::unordered_set` (no duplicate is added; the
iteration order of the model is insertion order). -/
def insertUnique (l : List Nat) (x : Nat) : List Nat :=
  if x ∈ l then l else l ++ [x]

/-- `Library::LoadRefs` (lines 598-613): a no-op on a null album or when
references were already loaded; otherwise the device's reference list for
the album is inserted into `Refs`, each referenced track contributes its
`Name` and `Track` index to `Tracks`, and `RefsLoaded` becomes true. -/
def Library.LoadRefs (lib : Library) (d : Device) (album : Option Nat) :
    Library :=
  match album with
  | none => lib
  | some aref =>
    match lib.albumArena[aref]? with
    | none => lib
    | some alb =>
      if alb.refsLoaded then lib
      else
        let refs := d.getObjectReferences alb.id
        { lib with
          albumArena := lib.albumArena.set aref
            { alb with
              refs := refs.foldl insertUnique alb.refs,
              tracks := alb.tracks ++
                refs.map (fun t => (d.objName t, d.objTrackIdx t)),
              refsLoaded := true } }

/-- `Library::AddTrack` (lines 615-631): a no-op on a null album; otherwise
loads the references once, sends the cached reference set plus the new
track id with `SetObjectReferences`, and records the track in the cache. -/
def Library.AddTrack (lib : Library) (d : Device) (album : Option Nat)
    (ti : NewTrackInfo) : Library × Device :=
  match album with
  | none => (lib, d)
  | some aref =>
    let lib1 := lib.LoadRefs d (some aref)
    match lib1.albumArena[aref]? with
    | none => (lib1, d)
    | some alb =>
      let handles := alb.refs ++ [ti.id]
      let d1 := d.setObjectReferences alb.id handles
      (({ lib1 with
          albumArena := lib1.albumArena.set aref
            { alb with
              refs := insertUnique alb.refs ti.id,
              tracks := alb.tracks ++ [(ti.name, ti.index)] } }), d1)

/-! ### Library construction (`Library::Library`, lines 44-192) -/

/-- One step of the root-folder scan (lines 66-76): the parser callback
stores the id of any root association named `Artists`, `Albums` or `Music`
(the last match wins).  The accumulator is
`(artistsFolder, albumsFolder, musicFolder)` with 0 for `ObjectId()`. -/
def scanRootStep (acc : Nat × Nat × Nat) (p : String × Nat) : Nat × Nat × Nat :=
  if p.1 = "Artists" then (p.2, acc.2.1, acc.2.2)
  else if p.1 = "Albums" then (acc.1, p.2, acc.2.2)
  else if p.1 = "Music" then (acc.1, acc.2.1, p.2)
  else acc

/-- The `(filename, id)` pairs of the root associations, as produced by
`GetObjectPropertyList(Session::Root, Association, ObjectFilename, 0, 1)`. -/
def Device.rootAssocNames (d : Device) : List (String × Nat) :=
  (d.assocChildren none).map fun o => (o.filename, o.id)

/-- One artist of the hydration loop (lines 120-146): the music folder is
looked up in the `musicFolders` snapshot (taken before the loop and never
updated by it) and created under `Music` when absent; the GUID property is
whatever the device reports (empty when absent); the record is added to the
arena and `_artists.insert` keeps any earlier entry for the name. -/
def loadArtistStep (musicFolder : Nat) (musicFolders : List (String × Nat))
    (st : Library × Device × List DirEvent) (o : DevObject) :
    Library × Device × List DirEvent :=
  let lib := st.1
  let mr :=
    match findVal musicFolders o.name with
    | some i => (i, st.2.1, ([] : List DirEvent))
    | none =>
      let r := st.2.1.createDir o.name (some musicFolder)
      (r.1, r.2, [(o.name, some musicFolder)])
  let arec : ArtistRec :=
    { id := o.id, musicFolderId := mr.1, name := o.name, guid := o.guid }
  ({ lib with
     artistArena := lib.artistArena ++ [arec],
     artists :=
       if (findVal lib.artists o.name).isSome then lib.artists
       else lib.artists ++ [(o.name, lib.artistArena.length)] },
   mr.2.1, st.2.2 ++ mr.2.2)

/-- One album of the hydration loop (lines 153-188): the artist is resolved
through `GetArtist` and created with `CreateArtist(artistName)` when
missing; the per-artist album-folder map is computed once per artist pointer
and cached (and never refreshed, exactly as the local `albumFolders` map);
the album folder is created under the artist's music folder when absent.
The `DateAuthored` handling only yields `Year`, which no claim depends on. -/
def loadAlbumStep
    (st : Library × Device × List DirEvent × List (Nat × List (String × Nat)))
    (o : DevObject) :
    Library × Device × List DirEvent × List (Nat × List (String × Nat)) :=
  let lib := st.1
  let d := st.2.1
  let ar :=
    match lib.GetArtist o.artistName with
    | some r => (r, lib, d, ([] : List DirEvent))
    | none =>
      let c := lib.CreateArtist d o.artistName ""
      (c.ref, c.lib, c.dev, c.trace)
  let lib1 := ar.2.1
  let arec := lib1.artistArena[ar.1]?.getD {}
  let fc :=
    match findVal st.2.2.2 ar.1 with
    | some m => (m, st.2.2.2)
    | none =>
      let m := ar.2.2.1.listAssociations arec.musicFolderId
      (m, st.2.2.2 ++ [(ar.1, m)])
  let mr :=
    match findVal fc.1 o.name with
    | some i => (i, ar.2.2.1, ([] : List DirEvent))
    | none =>
      let r := ar.2.2.1.createDir o.name (some arec.musicFolderId)
      (r.1, r.2, [(o.name, some arec.musicFolderId)])
  let alb : AlbumRec :=
    { id := o.id, musicFolderId := mr.1, artist := ar.1, name := o.name }
  ({ lib1 with
     albumArena := lib1.albumArena ++ [alb],
     albums :=
       if (findVal lib1.albums (ar.1, o.name)).isSome then lib1.albums
       else lib1.albums ++ [((ar.1, o.name), lib1.albumArena.length)] },
   mr.2.1, st.2.2.1 ++ ar.2.2.2 ++ mr.2.2, fc.2)

/-- Result of `Library::Library`. -/
structure InitRes where
  lib : Library
  dev : Device
  trace : List DirEvent
deriving DecidableEq, Repr

/-- The root-folder scan result `(artistsFolder, albumsFolder, musicFolder)`
with 0 for `ObjectId()` ("not found"); the parser callback keeps the last
match per name (lines 66-76). -/
def Device.rootScan (d : Device) : Nat × Nat × Nat :=
  d.rootAssocNames.foldl scanRootStep (0, 0, 0)

/-- One `if (_folder == ObjectId()) _folder = CreateDirectory(name, Root)`
statement of the constructor: create the root directory when `create`
holds, otherwise keep the scanned id and issue nothing. -/
def maybeCreateRoot (create : Bool) (cur : Nat) (d : Device) (n : String) :
    Nat × Device × List DirEvent :=
  if create then
    let r := d.createDir n none
    (r.1, r.2, [((n : String), (none : Option Nat))])
  else (cur, d, [])

/-- Lines 63-86 of the constructor: scan the root associations for the three
well-known folders and create the missing ones — `Artists` only when the
device supports artist objects.  The result is
`((artistsFolder, albumsFolder, musicFolder), device, trace)`. -/
def Library.createRootFolders (d0 : Device) :
    (Nat × Nat × Nat) × Device × List DirEvent :=
  let s0 := d0.rootScan
  let ra := maybeCreateRoot (d0.artistFormatSupported && decide (s0.1 = 0))
    s0.1 d0 "Artists"
  let rb := maybeCreateRoot (decide (s0.2.1 = 0)) s0.2.1 ra.2.1 "Albums"
  let rm := maybeCreateRoot (decide (s0.2.2 = 0)) s0.2.2 rb.2.1 "Music"
  ((ra.1, rb.1, rm.1), rm.2.1, ra.2.2 ++ rb.2.2 ++ rm.2.2)

/-- The body of `Library::Library` after the storage check (lines 50-192):
read the capability flags; create the missing well-known folders; snapshot
the associations under `Music` and the full artist and album object lists;
hydrate artists, then albums.  The artist and album lists are modelled from
the spec as the format-filtered object lists ("the Library pulls the full
existing artist and album lists"). -/
def Library.constructCore (d0 : Device) : InitRes :=
  let rf := Library.createRootFolders d0
  let dC := rf.2.1
  let musicFolders := dC.listAssociations rf.1.2.2
  let artistObjs :=
    if d0.artistFormatSupported then
      dC.objects.filter (fun o => o.format = DevFormat.artist)
    else []
  let albumObjs := dC.objects.filter fun o => o.format = DevFormat.album
  let lib0 : Library :=
    { artistsFolder := rf.1.1, albumsFolder := rf.1.2.1, musicFolder := rf.1.2.2,
      artistSupported := d0.artistFormatSupported,
      albumDateAuthoredSupported := d0.dateAuthoredSupported,
      albumCoverSupported := d0.coverSupported }
  let h1 := artistObjs.foldl (loadArtistStep rf.1.2.2 musicFolders) (lib0, dC, [])
  let h2 := albumObjs.foldl loadAlbumStep (h1.1, h1.2.1, [], [])
  { lib := h2.1, dev := h2.2.1,
    trace := rf.2.2 ++ h1.2.2 ++ h2.2.2.1 }

/-- `Library::Library` including the storage check (lines 46-48): with no
storages the constructor throws. -/
def Library.construct (d0 : Device) : Option InitRes :=
  if d0.storages = [] then none else some (Library.constructCore d0)

/-! ### Auxiliary statements and concrete states used by the theorems -/

/-- A hexadecimal digit, as `std::stoul(_, nullptr, 16)` accepts it. -/
def isHexDigitChar (c : Char) : Bool :=
  (48 ≤ c.toNat ∧ c.toNat ≤ 57) ∨ (97 ≤ c.toNat ∧ c.toNat ≤ 102) ∨
    (65 ≤ c.toNat ∧ c.toNat ≤ 70)

/-- The mixed-endian GUID layout as described: writing the dash-stripped hex
text as 16 bytes (`byteAt` pair `i` is byte `i`), the 4-byte, 2-byte and
2-byte components appear byte-reversed and the final 8 bytes in written
order. -/
def guidMixedEndian (hex : List Char) : List Nat :=
  (((List.range 16).map (byteAt hex)).take 4).reverse ++
    ((((List.range 16).map (byteAt hex)).drop 4).take 2).reverse ++
    ((((List.range 16).map (byteAt hex)).drop 6).take 2).reverse ++
    ((List.range 16).map (byteAt hex)).drop 8

/-- A device that already carries the three well-known folders and supports
artist objects. -/
def c1Dev : Device :=
  { nextId := 4,
    objects :=
      [{ id := 1, parent := none, format := DevFormat.assoc,
         filename := "Music", name := "Music" },
       { id := 2, parent := none, format := DevFormat.assoc,
         filename := "Albums", name := "Albums" },
       { id := 3, parent := none, format := DevFormat.assoc,
         filename := "Artists", name := "Artists" }],
    artistFormatSupported := true }

/-- The library state matching `c1Dev` after construction (folder ids bound,
caches empty). -/
def c1Lib : Library :=
  { artistsFolder := 3, albumsFolder := 2, musicFolder := 1,
    artistSupported := true }

/-- First `CreateArtist("A")` call on the fresh state. -/
def c1Step1 : CreateArtistRes := c1Lib.CreateArtist c1Dev "A" ""

/-- Second `CreateArtist("A")` call, on the state the first one produced. -/
def c1Step2 : CreateArtistRes := c1Step1.lib.CreateArtist c1Step1.dev "A" ""

/-- A fresh device without artist-object support: one storage, no objects. -/
def c7Dev : Device := {}

/-- What `Library` construction provably does with the three well-known
folders: each of `Music` and `Albums` is created at root exactly when absent,
`Artists` exactly when absent and artist objects are supported; a second
construction against the resulting device state issues no root
`CreateDirectory` for any of the three names. -/
def C7Post (d : Device) : Prop :=
  Library.construct d = some (Library.constructCore d) ∧
  ((("Music" : String), (none : Option Nat)) ∈ (Library.constructCore d).trace ↔
    ¬ d.hasRootAssoc "Music") ∧
  ((("Albums" : String), (none : Option Nat)) ∈ (Library.constructCore d).trace ↔
    ¬ d.hasRootAssoc "Albums") ∧
  ((("Artists" : String), (none : Option Nat)) ∈ (Library.constructCore d).trace ↔
    (d.artistFormatSupported = true ∧ ¬ d.hasRootAssoc "Artists")) ∧
  (∀ n : String, n = "Music" ∨ n = "Albums" ∨ n = "Artists" →
    (n, (none : Option Nat)) ∉
      (Library.constructCore (Library.constructCore d).dev).trace)

/-- A sequence of `AddTrack` calls against the album at arena index `aref`. -/
def addTracks (lib : Library) (d : Device) (aref : Nat)
    (ts : List NewTrackInfo) : Library × Device :=
  ts.foldl (fun s t => Library.AddTrack s.1 s.2 (some aref) t) (lib, d)

/-- Device for the `AddTrack` scenario: an album object (id 7) whose stored
reference list already holds tracks 21 and 22. -/
def c3Dev : Device :=
  { nextId := 30,
    objects :=
      [{ id := 7, parent := some 2, format := DevFormat.album,
         filename := "B--X.alb", name := "X", artistName := "B" },
       { id := 21, parent := some 5, format := DevFormat.track,
         filename := "t1.mp3", name := "t1", trackIdx := 1 },
       { id := 22, parent := some 5, format := DevFormat.track,
         filename := "t2.mp3", name := "t2", trackIdx := 2 }],
    objRefs := [(7, [21, 22])] }

/-- Library for the `AddTrack` scenario: one album record (arena index 0)
for device object 7, references not yet loaded. -/
def c3Lib : Library :=
  { albumsFolder := 2, musicFolder := 1,
    albumArena := [{ id := 7, musicFolderId := 5, artist := 0, name := "X" }],
    albums := [((0, "X"), 0)] }

/-- Device evolution during library operations: objects are only appended,
the capability fields and storages are untouched, and well-formedness is
preserved. -/
def DevPres (d d' : Device) : Prop :=
  (∃ ex, d'.objects = d.objects ++ ex) ∧
  d'.artistFormatSupported = d.artistFormatSupported ∧
  d'.storages = d.storages ∧ (d.Wf → d'.Wf)

/-- Invariant tying the cached reference set and the stored reference list
to the initially stored list `R0` and the tracks added so far. -/
def RefsInv (aref albumId : Nat) (R0 : List Nat) (s : Library × Device)
    (done : List NewTrackInfo) : Prop :=
  ∃ alb, s.1.albumArena[aref]? = some alb ∧ alb.id = albumId ∧
    ((done = [] ∧ alb.refsLoaded = false ∧ alb.refs = [] ∧
        s.2.getObjectReferences albumId = R0) ∨
     (alb.refsLoaded = true ∧
        (∀ y, y ∈ alb.refs ↔ y ∈ R0 ∨ ∃ t ∈ done, t.id = y) ∧
        (∀ y, y ∈ s.2.getObjectReferences albumId ↔
          y ∈ R0 ∨ ∃ t ∈ done, t.id = y)))

theorem snoc_id_iff (done : List NewTrackInfo) (ti : NewTrackInfo) (y : Nat)
    (A : Prop) :
    ((A ∨ ∃ t ∈ done, t.id = y) ∨ y = ti.id) ↔
      (A ∨ ∃ t ∈ done ++ [ti], t.id = y) := by
  constructor
  · rintro ((h | ⟨t, ht, hty⟩) | rfl)
    · exact Or.inl h
    · exact Or.inr ⟨t, List.mem_append_left _ ht, hty⟩
    · exact Or.inr ⟨ti, List.mem_append_right _ (by simp), rfl⟩
  · rintro (h | ⟨t, ht, hty⟩)
    · exact Or.inl (Or.inl h)
    · have h2 : t ∈ done ∨ t = ti := by simpa using ht
      rcases h2 with h2 | h2
      · exact Or.inl (Or.inr ⟨t, h2, hty⟩)
      · subst h2
        exact Or.inr hty.symm

/-! ## Theorems -/

theorem flatMapPair_mod (s : List Nat) (hb : ∀ c ∈ s, c < 256) :
    (s.flatMap fun c => [c % 256, 0]) = s.flatMap fun c => [c, 0] := by
  induction s with
  | nil => rfl
  | cons a t ih =>
    simp only [List.flatMap_cons]
    rw [Nat.mod_eq_of_lt (hb a (by simp)), ih fun c hc => hb c (by simp [hc])]

theorem flatMapPair_length (s : List Nat) :
    (s.flatMap fun c => [c, 0]).length = 2 * s.length := by
  induction s with
  | nil => rfl
  | cons a t ih =>
    simp only [List.flatMap_cons, List.length_append, List.length_cons,
      List.length_nil, ih]
    omega

/-- C6: for a string of at most 254 byte characters, the wire encoding is
one byte holding `len + 1`, the UTF-16LE code units (`[c, 0]` per
character), and a trailing two-byte NUL, for a total length of
`1 + 2 * (len + 1)`. -/
theorem c6_string_codec (s : List Nat) (hlen : s.length ≤ 254)
    (hb : ∀ c ∈ s, c < 256) :
    encodePtpString s =
      (s.length + 1) :: ((s.flatMap fun c => [c, 0]) ++ [0, 0]) ∧
    (encodePtpString s).length = 1 + 2 * (s.length + 1) := by
  have h1 : encodePtpString s =
      (s.length + 1) :: ((s.flatMap fun c => [c, 0]) ++ [0, 0]) := by
    unfold encodePtpString
    rw [Nat.mod_eq_of_lt (by omega), flatMapPair_mod s hb, List.cons_append]
  refine ⟨h1, ?_⟩
  rw [h1]
  simp only [List.length_cons, List.length_append, List.length_nil,
    flatMapPair_length]
  omega

theorem c6_string_codec_w :
    ([72, 105] : List Nat).length ≤ 254 ∧
    (encodePtpString [72, 105] =
      (([72, 105] : List Nat).length + 1) ::
        ((([72, 105] : List Nat).flatMap fun c => [c, 0]) ++ [0, 0]) ∧
    (encodePtpString [72, 105]).length = 1 + 2 * (([72, 105] : List Nat).length + 1)) :=
  ⟨by decide, c6_string_codec [72, 105] (by decide) (by decide)⟩

theorem chunksOfAux_not_nil {mp : Nat} (hmp : 0 < mp) :
    ∀ (f : Nat) (w : List Nat), ([] : List Nat) ∉ chunksOfAux mp f w := by
  intro f
  induction f with
  | zero => intro w; simp [chunksOfAux]
  | succ f ih =>
    intro w
    cases w with
    | nil => simp [chunksOfAux]
    | cons a t =>
      simp only [chunksOfAux, List.mem_cons]
      rintro (h | h)
      · cases mp with
        | zero => omega
        | succ m => simp [List.take_succ_cons] at h
      · exact ih _ h

theorem chunksOfAux_join {mp : Nat} (hmp : 0 < mp) :
    ∀ (f : Nat) (w : List Nat), w.length ≤ f → (chunksOfAux mp f w).flatten = w := by
  intro f
  induction f with
  | zero =>
    intro w hw
    have : w = [] := List.eq_nil_of_length_eq_zero (by omega)
    subst this
    rfl
  | succ f ih =>
    intro w hw
    cases w with
    | nil => rfl
    | cons a t =>
      simp only [chunksOfAux, List.flatten_cons]
      rw [ih _ (by simp only [List.length_drop]; simp at hw ⊢; omega)]
      exact List.take_append_drop _ _

/-- C4 counterexample: a bulk write of 8 bytes on an endpoint with
`MAX_PACKET = 4` — a non-zero multiple of the packet size — produces no
zero-length packet, contradicting the claim that such transfers are
ZLP-terminated. -/
theorem c4_counterexample :
    (List.replicate 8 (0 : Nat)).length % 4 = 0 ∧
    (List.replicate 8 (0 : Nat)).length ≠ 0 ∧
    ([] : List Nat) ∉ writeBulkWire 4 (List.replicate 8 0) := by
  decide

/-- C4 amended: `Device::WriteBulk` submits the whole stream as a single
pipe write of exactly its length — every byte reaches the wire — but it
never enables short-packet termination and never issues a zero-length
write, so no transfer (in particular none whose length is a non-zero
multiple of `MAX_PACKET`) is terminated with a ZLP. -/
theorem c4_write_no_zlp (mp : Nat) (data : List Nat) (hmp : 0 < mp)
    (hd : data ≠ []) :
    (writeBulkWire mp data).flatten = data ∧
    ([] : List Nat) ∉ writeBulkWire mp data := by
  unfold writeBulkWire wirePacketsOfWrite chunksOf
  rw [if_neg hd]
  exact ⟨chunksOfAux_join hmp _ _ le_rfl, chunksOfAux_not_nil hmp _ _⟩

theorem c4_write_no_zlp_w :
    0 < 4 ∧ (List.replicate 8 (0 : Nat)) ≠ [] ∧
    ((writeBulkWire 4 (List.replicate 8 0)).flatten = List.replicate 8 0 ∧
      ([] : List Nat) ∉ writeBulkWire 4 (List.replicate 8 0)) :=
  ⟨by decide, by decide, c4_write_no_zlp 4 (List.replicate 8 0) (by decide) (by decide)⟩

theorem readBulkAux_all {bs : Nat} (hbs : 0 < bs) :
    ∀ (f : Nat) (p : List Nat), p.length < f → readBulkAux bs f p = p := by
  intro f
  induction f with
  | zero => intro p hp; omega
  | succ f ih =>
    intro p hp
    simp only [readBulkAux, List.length_take]
    by_cases hc : min bs p.length = bs
    · rw [if_pos hc, ih _ (by simp only [List.length_drop]; omega)]
      exact List.take_append_drop _ _
    · rw [if_neg hc]
      exact List.take_of_length_le (by omega)

/-- C5: the bulk-read loop keeps reading and concatenating until the whole
data phase — also one spanning multiple USB reads — has been delivered to
the output stream, and returns exactly the advertised payload. -/
theorem c5_read_full_phase (bufSize : Nat) (payload : List Nat)
    (h1 : 0 < bufSize) (h2 : bufSize < payload.length) :
    readBulkLoop bufSize payload = payload :=
  readBulkAux_all h1 _ _ (Nat.lt_succ_self _)

theorem c5_read_full_phase_w :
    0 < 2 ∧ 2 < ([1, 2, 3, 4, 5] : List Nat).length ∧
    readBulkLoop 2 [1, 2, 3, 4, 5] = [1, 2, 3, 4, 5] :=
  ⟨by decide, by decide, c5_read_full_phase 2 [1, 2, 3, 4, 5] (by decide) (by decide)⟩

/-- C2 counterexample: with no trusted-app key bundle (`_trustedApp` null),
`Session::EnableWireless` still issues its vendor operations — the USB
trace is not empty, contradicting the claim that the call is refused
locally without USB traffic. -/
theorem c2_counterexample : cliEnableWireless none ≠ [] := by decide

/-- C2 amended: `SetWiFiNetwork` is refused locally — with no USB traffic —
whenever the key bundle is absent or not loaded, but `EnableWireless` never
consults the key state and issues its vendor operations unconditionally. -/
theorem c2_wireless_gating (k : Option Bool) (ssid : List Nat)
    (f0 f1 f2 : Nat) (encPwd : List Nat) :
    (k ≠ some true → cliSetWiFiNetwork k ssid f0 f1 f2 encPwd = []) ∧
    cliEnableWireless k = [UsbOp.enableWirelessSync, UsbOp.op922b 3 1 0] := by
  constructor
  · intro hk
    match k with
    | none => rfl
    | some false => rfl
    | some true => exact absurd rfl hk
  · rfl

theorem c2_wireless_gating_w :
    cliSetWiFiNetwork none [] 0 0 0 [] = [] ∧
    cliEnableWireless none = [UsbOp.enableWirelessSync, UsbOp.op922b 3 1 0] :=
  ⟨(c2_wireless_gating none [] 0 0 0 []).1 (by decide),
   (c2_wireless_gating none [] 0 0 0 []).2⟩

/-- C9: when the dash-stripped GUID text has exactly 32 hexadecimal digits,
both `CreateArtist` and `UpdateArtistGuid` produce the 16 bytes with the
4-, 2- and 2-byte components byte-reversed and the final 8 bytes in written
order; for any other dash-stripped length `CreateArtist` leaves the GUID
empty and `UpdateArtistGuid` leaves it unchanged. -/
theorem c9_guid_endianness (guid : String) (old : List Nat) :
    ((stripDashes guid).length = 32 →
      (∀ c ∈ stripDashes guid, isHexDigitChar c = true) →
      createArtistGuid guid = guidMixedEndian (stripDashes guid) ∧
      updateArtistGuidBytes old guid = guidMixedEndian (stripDashes guid) ∧
      (createArtistGuid guid).length = 16) ∧
    ((stripDashes guid).length ≠ 32 →
      createArtistGuid guid = [] ∧ updateArtistGuidBytes old guid = old) := by
  have hge : ∀ hex : List Char, parseGuidBytes hex = guidMixedEndian hex :=
    fun hex => rfl
  constructor
  · intro h32 _
    have hne : guid ≠ "" := by
      intro he
      rw [he] at h32
      exact absurd h32 (by decide)
    unfold createArtistGuid updateArtistGuidBytes
    rw [if_neg hne, if_neg hne, if_pos h32, if_pos h32]
    exact ⟨hge _, hge _, rfl⟩
  · intro h32
    by_cases he : guid = ""
    · subst he
      exact ⟨rfl, rfl⟩
    · unfold createArtistGuid updateArtistGuidBytes
      rw [if_neg he, if_neg he, if_neg h32, if_neg h32]
      exact ⟨rfl, rfl⟩

theorem c9_guid_endianness_w :
    (createArtistGuid "45a663b5-b1cb-4a91-bff6-2bef7bbfdd76" =
      guidMixedEndian (stripDashes "45a663b5-b1cb-4a91-bff6-2bef7bbfdd76") ∧
     updateArtistGuidBytes [9] "45a663b5-b1cb-4a91-bff6-2bef7bbfdd76" =
      guidMixedEndian (stripDashes "45a663b5-b1cb-4a91-bff6-2bef7bbfdd76") ∧
     (createArtistGuid "45a663b5-b1cb-4a91-bff6-2bef7bbfdd76").length = 16) ∧
    (createArtistGuid "zz" = [] ∧ updateArtistGuidBytes [9] "zz" = [9]) :=
  ⟨(c9_guid_endianness "45a663b5-b1cb-4a91-bff6-2bef7bbfdd76" [9]).1
      (by decide) (by decide),
   (c9_guid_endianness "zz" [9]).2 (by decide)⟩

/-- C10: an empty artist name is replaced by the `UknownArtist` sentinel in
both `GetArtist` and `CreateArtist`, and an empty album name by the
`UknownAlbum` sentinel in both `GetAlbum` and `CreateAlbum`, so the empty
name and the sentinel always denote the same cache entry. -/
theorem c10_sentinels (lib : Library) (d : Device) (g : String)
    (artist : Option Nat) (year : Nat) :
    lib.GetArtist "" = lib.GetArtist UknownArtist ∧
    lib.CreateArtist d "" g = lib.CreateArtist d UknownArtist g ∧
    lib.GetAlbum artist "" = lib.GetAlbum artist UknownAlbum ∧
    lib.CreateAlbum d artist "" year = lib.CreateAlbum d artist UknownAlbum year := by
  refine ⟨?_, ?_, ?_, ?_⟩
  · simp [Library.GetArtist, UknownArtist]
  · simp [Library.CreateArtist, UknownArtist]
  · cases artist with
    | none => rfl
    | some a => simp [Library.GetAlbum, UknownAlbum]
  · cases artist with
    | none => rfl
    | some a => simp [Library.CreateAlbum, UknownAlbum]

/-- C8: for every SSID and (128-byte) encrypted password the Wi-Fi
configuration buffer is exactly 324 bytes: 4-byte profile id 1, 4-byte SSID
length capped at 32, the SSID null-padded to 32 bytes, six 4-byte flag
words, a 4-byte password length of 128, the 128-byte encrypted password,
then zero padding up to 324. -/
theorem c8_wifi_layout (ssid : List Nat) (f0 f1 f2 : Nat) (encPwd : List Nat)
    (h : encPwd.length = 128) :
    buildWiFiConfig ssid f0 f1 f2 encPwd =
      le32 1 ++ le32 (min ssid.length 32) ++
      (ssid.take (min ssid.length 32) ++
        List.replicate (32 - min ssid.length 32) 0) ++
      le32 f0 ++ le32 f1 ++ le32 f2 ++ le32 1 ++ le32 0 ++ le32 0 ++
      le32 128 ++ encPwd ++ List.replicate 128 0 ∧
    (buildWiFiConfig ssid f0 f1 f2 encPwd).length = 324 := by
  have hsb : (ssid.take (min ssid.length 32) ++
      List.replicate (32 - min ssid.length 32) 0).length = 32 := by
    simp only [List.length_append, List.length_take, List.length_replicate]
    omega
  have hbase : (le32 1 ++ le32 (min ssid.length 32) ++
      (ssid.take (min ssid.length 32) ++
        List.replicate (32 - min ssid.length 32) 0) ++
      le32 f0 ++ le32 f1 ++ le32 f2 ++ le32 1 ++ le32 0 ++ le32 0 ++
      le32 128 ++ encPwd).length = 196 := by
    simp only [List.length_append, hsb, h, le32, List.length_cons,
      List.length_nil]
  have he : buildWiFiConfig ssid f0 f1 f2 encPwd =
      le32 1 ++ le32 (min ssid.length 32) ++
      (ssid.take (min ssid.length 32) ++
        List.replicate (32 - min ssid.length 32) 0) ++
      le32 f0 ++ le32 f1 ++ le32 f2 ++ le32 1 ++ le32 0 ++ le32 0 ++
      le32 128 ++ encPwd ++ List.replicate 128 0 := by
    simp only [buildWiFiConfig]
    rw [hbase]
  exact ⟨he, by rw [he]; simp only [List.length_append, hsb, h, le32,
    List.length_cons, List.length_nil, List.length_replicate]⟩

theorem c8_wifi_layout_w :
    (List.replicate 128 (9 : Nat)).length = 128 ∧
    (buildWiFiConfig [65, 66] 1 7 4 (List.replicate 128 9) =
      le32 1 ++ le32 (min ([65, 66] : List Nat).length 32) ++
      (([65, 66] : List Nat).take (min ([65, 66] : List Nat).length 32) ++
        List.replicate (32 - min ([65, 66] : List Nat).length 32) 0) ++
      le32 1 ++ le32 7 ++ le32 4 ++ le32 1 ++ le32 0 ++ le32 0 ++
      le32 128 ++ List.replicate 128 9 ++ List.replicate 128 0 ∧
    (buildWiFiConfig [65, 66] 1 7 4 (List.replicate 128 9)).length = 324) :=
  ⟨by decide, c8_wifi_layout [65, 66] 1 7 4 (List.replicate 128 9) (by decide)⟩

/-! ### Library lemmas -/

theorem addObj_nextId (d : Device) (x : DevObject) :
    (d.addObj x).nextId = d.nextId + 1 := rfl

theorem assocChildren_addObj (d : Device) (x : DevObject) (p : Option Nat) :
    (d.addObj x).assocChildren p =
      d.assocChildren p ++
        [x].filter (fun o => o.parent = p ∧ o.format = DevFormat.assoc) := by
  simp [Device.addObj, Device.assocChildren, List.filter_append]

theorem artistObjCount_addObj (d : Device) (x : DevObject) :
    (d.addObj x).artistObjCount =
      d.artistObjCount + (if x.format = DevFormat.artist then 1 else 0) := by
  by_cases hx : x.format = DevFormat.artist <;>
    simp [Device.addObj, Device.artistObjCount, List.filter_append, hx]

theorem sendObjectPropList_fst (d : Device) (p : Option Nat) (fmt : DevFormat)
    (pr : PropSet) : (d.sendObjectPropList p fmt pr).1 = d.nextId := rfl

theorem sendObjectPropList_snd (d : Device) (p : Option Nat) (fmt : DevFormat)
    (pr : PropSet) :
    (d.sendObjectPropList p fmt pr).2 =
      d.addObj
        { id := d.nextId, parent := p, format := fmt,
          filename := pr.filename, name := pr.name,
          artistName := pr.artistName, guid := pr.guid,
          trackIdx := pr.trackIdx } := rfl

theorem getOrCreate_found (d : Device) (p : Nat) (name : String) (o : DevObject)
    (h : (d.assocChildren (some p)).find? (fun x => name = x.filename) = some o) :
    Library.GetOrCreate d p name = (o.id, d, []) := by
  unfold Library.GetOrCreate
  rw [h]

theorem getOrCreate_missing (d : Device) (p : Nat) (name : String)
    (h : (d.assocChildren (some p)).find? (fun x => name = x.filename) = none) :
    Library.GetOrCreate d p name =
      (d.nextId,
       d.addObj
         { id := d.nextId, parent := some p, format := DevFormat.assoc,
           filename := name, name := name },
       [(name, some p)]) := by
  unfold Library.GetOrCreate
  rw [h]
  rfl

theorem createArtist_getOrCreate (lib : Library) (d : Device) (n g : String) :
    Library.GetOrCreate (lib.CreateArtist d n g).dev lib.musicFolder
        (if n = "" then UknownArtist else n) =
      ((lib.CreateArtist d n g).artist.musicFolderId,
       (lib.CreateArtist d n g).dev, []) := by
  cases hfind : (d.assocChildren (some lib.musicFolder)).find?
      (fun x => (if n = "" then UknownArtist else n) = x.filename) with
  | some o =>
    cases hs : lib.artistSupported with
    | true =>
      simp only [Library.CreateArtist, getOrCreate_found d _ _ _ hfind, hs, if_true,
        sendObjectPropList_fst, sendObjectPropList_snd]
      apply getOrCreate_found
      rw [assocChildren_addObj]
      simp [hfind]
    | false =>
      simp only [Library.CreateArtist, getOrCreate_found d _ _ _ hfind, hs,
        Bool.false_eq_true, if_false]
  | none =>
    cases hs : lib.artistSupported with
    | true =>
      simp only [Library.CreateArtist, getOrCreate_missing d _ _ hfind, hs, if_true,
        sendObjectPropList_fst, sendObjectPropList_snd, addObj_nextId]
      refine getOrCreate_found _ _ _
        { id := d.nextId, parent := some lib.musicFolder,
          format := DevFormat.assoc,
          filename := if n = "" then UknownArtist else n,
          name := if n = "" then UknownArtist else n } ?_
      rw [assocChildren_addObj, assocChildren_addObj]
      simp [List.find?_append, hfind]
    | false =>
      simp only [Library.CreateArtist, getOrCreate_missing d _ _ hfind, hs,
        Bool.false_eq_true, if_false]
      refine getOrCreate_found _ _ _
        { id := d.nextId, parent := some lib.musicFolder,
          format := DevFormat.assoc,
          filename := if n = "" then UknownArtist else n,
          name := if n = "" then UknownArtist else n } ?_
      rw [assocChildren_addObj]
      simp [List.find?_append, hfind]

theorem createArtist_lib_musicFolder (lib : Library) (d : Device) (n g : String) :
    (lib.CreateArtist d n g).lib.musicFolder = lib.musicFolder := rfl

theorem createArtist_lib_supported (lib : Library) (d : Device) (n g : String) :
    (lib.CreateArtist d n g).lib.artistSupported = lib.artistSupported := rfl

theorem createArtist_musicFolderId (lib : Library) (d : Device) (n g : String) :
    (lib.CreateArtist d n g).artist.musicFolderId =
      (Library.GetOrCreate d lib.musicFolder
        (if n = "" then UknownArtist else n)).1 := rfl

theorem createArtist_id (lib : Library) (d : Device) (n g : String) :
    (lib.CreateArtist d n g).artist.id =
      (if lib.artistSupported then
        (Library.GetOrCreate d lib.musicFolder
          (if n = "" then UknownArtist else n)).2.1.nextId
       else 0) := by
  cases hs : lib.artistSupported <;>
    simp [Library.CreateArtist, hs, sendObjectPropList_fst]

theorem createArtist_dev_count (lib : Library) (d : Device) (n g : String) :
    (lib.CreateArtist d n g).dev.artistObjCount =
      (Library.GetOrCreate d lib.musicFolder
        (if n = "" then UknownArtist else n)).2.1.artistObjCount +
        (if lib.artistSupported then 1 else 0) := by
  cases hs : lib.artistSupported <;>
    simp [Library.CreateArtist, hs, sendObjectPropList_snd, artistObjCount_addObj]

theorem createArtist_dev_nextId (lib : Library) (d : Device) (n g : String) :
    (lib.CreateArtist d n g).dev.nextId =
      (Library.GetOrCreate d lib.musicFolder
        (if n = "" then UknownArtist else n)).2.1.nextId +
        (if lib.artistSupported then 1 else 0) := by
  cases hs : lib.artistSupported <;>
    simp [Library.CreateArtist, hs, sendObjectPropList_snd, addObj_nextId]

/-- C1 counterexample: on a device that supports artist objects, a second
`CreateArtist` with the same name returns a record with a different
ObjectId (6 instead of 5) and the device gains a second artist object, so
the call is not idempotent. -/
theorem c1_counterexample :
    c1Step2.artist.id ≠ c1Step1.artist.id ∧
    c1Step2.dev.artistObjCount = c1Step1.dev.artistObjCount + 1 := by
  decide

/-- C1 amended: a repeated `CreateArtist(n)` returns a record with the same
music-folder ObjectId (`GetOrCreate` finds the directory of the first
call), but when the device supports artist objects the second call creates
one additional artist object on the device and returns its fresh ObjectId
(one greater than the first call's); only when artist objects are
unsupported does the second call return the same ObjectId (0) and create
nothing. -/
theorem c1_create_artist_repeat (lib : Library) (d : Device) (n g : String) :
    ((lib.CreateArtist d n g).lib.CreateArtist
        (lib.CreateArtist d n g).dev n g).artist.musicFolderId
      = (lib.CreateArtist d n g).artist.musicFolderId ∧
    ((lib.CreateArtist d n g).lib.CreateArtist
        (lib.CreateArtist d n g).dev n g).artist.id
      = (if lib.artistSupported then (lib.CreateArtist d n g).artist.id + 1
         else (lib.CreateArtist d n g).artist.id) ∧
    ((lib.CreateArtist d n g).lib.CreateArtist
        (lib.CreateArtist d n g).dev n g).dev.artistObjCount
      = (lib.CreateArtist d n g).dev.artistObjCount +
        (if lib.artistSupported then 1 else 0) := by
  have key := createArtist_getOrCreate lib d n g
  refine ⟨?_, ?_, ?_⟩
  · rw [createArtist_musicFolderId, createArtist_lib_musicFolder, key]
  · rw [createArtist_id, createArtist_lib_supported, createArtist_lib_musicFolder,
      key]
    cases hs : lib.artistSupported
    · simp only [hs, Bool.false_eq_true, if_false]
      rw [createArtist_id]
      simp [hs]
    · simp only [hs, if_true]
      rw [createArtist_id, createArtist_dev_nextId]
      simp [hs]
  · rw [createArtist_dev_count, createArtist_lib_supported,
      createArtist_lib_musicFolder, key]

theorem lt_length_of_getElem?_some {α : Type} (l : List α) (i : Nat) (a : α)
    (h : l[i]? = some a) : i < l.length := by
  by_contra hc
  push_neg at hc
  rw [List.getElem?_eq_none hc] at h
  cases h

theorem mem_insertUnique (l : List Nat) (x y : Nat) :
    y ∈ insertUnique l x ↔ y ∈ l ∨ y = x := by
  unfold insertUnique
  by_cases h : x ∈ l
  · rw [if_pos h]
    constructor
    · exact Or.inl
    · rintro (hy | rfl)
      · exact hy
      · exact h
  · rw [if_neg h]
    simp

theorem mem_foldl_insertUnique (L : List Nat) : ∀ (l : List Nat) (y : Nat),
    y ∈ L.foldl insertUnique l ↔ y ∈ l ∨ y ∈ L := by
  induction L with
  | nil => simp
  | cons a t ih =>
    intro l y
    rw [List.foldl_cons, ih, mem_insertUnique]
    simp [or_assoc]

theorem getObjectReferences_set_self (d : Device) (i : Nat) (rs : List Nat) :
    (d.setObjectReferences i rs).getObjectReferences i = rs := by
  simp [Device.setObjectReferences, Device.getObjectReferences, findVal,
    List.find?_cons]

theorem loadRefs_loaded (lib : Library) (d : Device) (aref : Nat)
    (alb : AlbumRec) (h : lib.albumArena[aref]? = some alb)
    (hl : alb.refsLoaded = true) :
    lib.LoadRefs d (some aref) = lib := by
  simp only [Library.LoadRefs]
  rw [h]
  simp [hl]

theorem loadRefs_fresh (lib : Library) (d : Device) (aref : Nat)
    (alb : AlbumRec) (h : lib.albumArena[aref]? = some alb)
    (hl : alb.refsLoaded = false) :
    lib.LoadRefs d (some aref) =
      { lib with
        albumArena := lib.albumArena.set aref
          { alb with
            refs := (d.getObjectReferences alb.id).foldl insertUnique alb.refs,
            tracks := alb.tracks ++
              (d.getObjectReferences alb.id).map
                (fun t => (d.objName t, d.objTrackIdx t)),
            refsLoaded := true } } := by
  simp only [Library.LoadRefs]
  rw [h]
  simp [hl]

theorem addTrack_eq (lib : Library) (d : Device) (aref : Nat)
    (alb1 : AlbumRec) (ti : NewTrackInfo)
    (h1 : (lib.LoadRefs d (some aref)).albumArena[aref]? = some alb1) :
    Library.AddTrack lib d (some aref) ti =
      ({ lib.LoadRefs d (some aref) with
         albumArena := (lib.LoadRefs d (some aref)).albumArena.set aref
           { alb1 with
             refs := insertUnique alb1.refs ti.id,
             tracks := alb1.tracks ++ [(ti.name, ti.index)] } },
       d.setObjectReferences alb1.id (alb1.refs ++ [ti.id])) := by
  simp only [Library.AddTrack]
  rw [h1]

theorem addTrack_loaded (lib : Library) (d : Device) (aref : Nat)
    (alb : AlbumRec) (ti : NewTrackInfo)
    (h : lib.albumArena[aref]? = some alb) (hl : alb.refsLoaded = true) :
    Library.AddTrack lib d (some aref) ti =
      ({ lib with
         albumArena := lib.albumArena.set aref
           { alb with
             refs := insertUnique alb.refs ti.id,
             tracks := alb.tracks ++ [(ti.name, ti.index)] } },
       d.setObjectReferences alb.id (alb.refs ++ [ti.id])) := by
  have hload := loadRefs_loaded lib d aref alb h hl
  have h1 : (lib.LoadRefs d (some aref)).albumArena[aref]? = some alb := by
    rw [hload]; exact h
  rw [addTrack_eq lib d aref alb ti h1, hload]

theorem addTrack_fresh (lib : Library) (d : Device) (aref : Nat)
    (alb : AlbumRec) (ti : NewTrackInfo)
    (h : lib.albumArena[aref]? = some alb) (hl : alb.refsLoaded = false) :
    Library.AddTrack lib d (some aref) ti =
      ({ lib with
         albumArena := (lib.albumArena.set aref
           { alb with
             refs := (d.getObjectReferences alb.id).foldl insertUnique alb.refs,
             tracks := alb.tracks ++
               (d.getObjectReferences alb.id).map
                 (fun t => (d.objName t, d.objTrackIdx t)),
             refsLoaded := true }).set aref
           { alb with
             refs := insertUnique
               ((d.getObjectReferences alb.id).foldl insertUnique alb.refs)
               ti.id,
             tracks := (alb.tracks ++
               (d.getObjectReferences alb.id).map
                 (fun t => (d.objName t, d.objTrackIdx t))) ++
               [(ti.name, ti.index)],
             refsLoaded := true } },
       d.setObjectReferences alb.id
         (((d.getObjectReferences alb.id).foldl insertUnique alb.refs) ++
           [ti.id])) := by
  have hlen := lt_length_of_getElem?_some _ _ _ h
  have hload := loadRefs_fresh lib d aref alb h hl
  have h1 : (lib.LoadRefs d (some aref)).albumArena[aref]? =
      some { alb with
        refs := (d.getObjectReferences alb.id).foldl insertUnique alb.refs,
        tracks := alb.tracks ++
          (d.getObjectReferences alb.id).map
            (fun t => (d.objName t, d.objTrackIdx t)),
        refsLoaded := true } := by
    rw [hload]
    exact List.getElem?_set_eq_of_lt _ hlen
  rw [addTrack_eq lib d aref _ ti h1, hload]

theorem refsInv_step (aref albumId : Nat) (R0 : List Nat)
    (s : Library × Device) (done : List NewTrackInfo) (ti : NewTrackInfo)
    (hinv : RefsInv aref albumId R0 s done) :
    RefsInv aref albumId R0 (Library.AddTrack s.1 s.2 (some aref) ti)
      (done ++ [ti]) := by
  obtain ⟨alb, halb, hid, hcase⟩ := hinv
  subst hid
  have hlen := lt_length_of_getElem?_some _ _ _ halb
  rcases hcase with ⟨hdone, hl, hr, hs⟩ | ⟨hl, hmem, hs⟩
  · subst hdone
    rw [addTrack_fresh s.1 s.2 aref alb ti halb hl]
    refine ⟨_, List.getElem?_set_eq_of_lt _ (by simpa using hlen), rfl,
      Or.inr ⟨rfl, ?_, ?_⟩⟩
    · intro y
      rw [mem_insertUnique, mem_foldl_insertUnique, hr, hs]
      constructor
      · rintro ((h | h) | rfl)
        · cases h
        · exact Or.inl h
        · exact Or.inr ⟨ti, by simp, rfl⟩
      · rintro (h | ⟨t, ht, hty⟩)
        · exact Or.inl (Or.inr h)
        · have h2 : t = ti := by simpa using ht
          subst h2
          exact Or.inr hty.symm
    · intro y
      rw [getObjectReferences_set_self, List.mem_append,
        mem_foldl_insertUnique, hr, hs]
      constructor
      · rintro ((h | h) | h)
        · cases h
        · exact Or.inl h
        · have h2 : y = ti.id := by simpa using h
          exact Or.inr ⟨ti, by simp, h2.symm⟩
      · rintro (h | ⟨t, ht, hty⟩)
        · exact Or.inl (Or.inr h)
        · have h2 : t = ti := by simpa using ht
          subst h2
          exact Or.inr (by simp [← hty])
  · rw [addTrack_loaded s.1 s.2 aref alb ti halb hl]
    refine ⟨_, List.getElem?_set_eq_of_lt _ hlen, rfl, Or.inr ⟨hl, ?_, ?_⟩⟩
    · intro y
      rw [mem_insertUnique, hmem y]
      exact snoc_id_iff done ti y (y ∈ R0)
    · intro y
      rw [getObjectReferences_set_self, List.mem_append, hmem y]
      simp only [List.mem_singleton]
      exact snoc_id_iff done ti y (y ∈ R0)

theorem refsInv_fold (aref albumId : Nat) (R0 : List Nat) :
    ∀ (ts : List NewTrackInfo) (s : Library × Device)
      (done : List NewTrackInfo),
      RefsInv aref albumId R0 s done →
      RefsInv aref albumId R0
        (ts.foldl (fun s t => Library.AddTrack s.1 s.2 (some aref) t) s)
        (done ++ ts) := by
  intro ts
  induction ts with
  | nil => intro s done h; simpa using h
  | cons t ts ih =>
    intro s done h
    rw [List.foldl_cons]
    have h2 := ih (Library.AddTrack s.1 s.2 (some aref) t) (done ++ [t])
      (refsInv_step aref albumId R0 s done t h)
    simpa using h2

/-- C3: after any sequence of `AddTrack` calls on an album whose references
were not yet loaded, the reference list stored on the device via
`SetObjectReferences` equals (as a set) the union of the references
previously stored on the device for that album and the ids of the added
tracks. -/
theorem c3_album_refs (lib : Library) (d : Device) (aref albumId : Nat)
    (alb : AlbumRec) (R0 : List Nat) (ts : List NewTrackInfo) (x : Nat)
    (hA : lib.albumArena[aref]? = some alb)
    (hId : alb.id = albumId)
    (hL : alb.refsLoaded = false)
    (hR : alb.refs = [])
    (hS : d.getObjectReferences albumId = R0) :
    x ∈ (addTracks lib d aref ts).2.getObjectReferences albumId ↔
      x ∈ R0 ∨ ∃ t ∈ ts, t.id = x := by
  have h0 : RefsInv aref albumId R0 (lib, d) [] :=
    ⟨alb, hA, hId, Or.inl ⟨rfl, hL, hR, hS⟩⟩
  have h1 := refsInv_fold aref albumId R0 ts (lib, d) [] h0
  rw [List.nil_append] at h1
  obtain ⟨alb2, _, hid2, hcase⟩ := h1
  rcases hcase with ⟨hts, _, _, hstored⟩ | ⟨_, _, hstored⟩
  · subst hts
    rw [show addTracks lib d aref [] = (lib, d) from rfl, hS]
    simp
  · exact hstored x

theorem c3_album_refs_w :
    25 ∈ (addTracks c3Lib c3Dev 0 [⟨25, "t3", 3⟩]).2.getObjectReferences 7 ↔
      25 ∈ [21, 22] ∨ ∃ t ∈ [(⟨25, "t3", 3⟩ : NewTrackInfo)], t.id = 25 :=
  c3_album_refs c3Lib c3Dev 0 7
    { id := 7, musicFolderId := 5, artist := 0, name := "X" }
    [21, 22] [⟨25, "t3", 3⟩] 25
    (by decide) (by decide) (by decide) (by decide) (by decide)

theorem devPres_refl (d : Device) : DevPres d d :=
  ⟨⟨[], by simp⟩, rfl, rfl, id⟩

theorem devPres_trans {a b c : Device} (h1 : DevPres a b) (h2 : DevPres b c) :
    DevPres a c := by
  obtain ⟨⟨e1, he1⟩, hf1, hs1, hw1⟩ := h1
  obtain ⟨⟨e2, he2⟩, hf2, hs2, hw2⟩ := h2
  exact ⟨⟨e1 ++ e2, by rw [he2, he1, List.append_assoc]⟩,
    hf2.trans hf1, hs2.trans hs1, fun h => hw2 (hw1 h)⟩

theorem wf_addObj (d : Device) (x : DevObject) (hw : d.Wf)
    (hx : x.id = d.nextId) : (d.addObj x).Wf := by
  obtain ⟨h1, h2, h3⟩ := hw
  refine ⟨h1, ?_, ?_⟩
  · show 1 ≤ d.nextId + 1
    omega
  · intro o ho
    have ho2 : o ∈ d.objects ∨ o = x := by simpa [Device.addObj] using ho
    rcases ho2 with ho2 | ho2
    · have h4 := h3 o ho2
      show 1 ≤ o.id ∧ o.id < d.nextId + 1
      omega
    · subst ho2
      show 1 ≤ o.id ∧ o.id < d.nextId + 1
      rw [hx]
      omega

theorem devPres_addObj (d : Device) (x : DevObject) (hx : x.id = d.nextId) :
    DevPres d (d.addObj x) :=
  ⟨⟨[x], rfl⟩, rfl, rfl, fun hw => wf_addObj d x hw hx⟩

theorem devPres_getOrCreate (d : Device) (p : Nat) (n : String) :
    DevPres d (Library.GetOrCreate d p n).2.1 := by
  cases hfind : (d.assocChildren (some p)).find? (fun x => n = x.filename) with
  | some o =>
    rw [getOrCreate_found d p n o hfind]
    exact devPres_refl d
  | none =>
    rw [getOrCreate_missing d p n hfind]
    exact devPres_addObj d _ rfl

theorem devPres_createArtist (lib : Library) (d : Device) (n g : String) :
    DevPres d (lib.CreateArtist d n g).dev := by
  cases hs : lib.artistSupported with
  | true =>
    refine devPres_trans (devPres_getOrCreate d lib.musicFolder
      (if n = "" then UknownArtist else n)) ?_
    simp only [Library.CreateArtist, hs, if_true]
    exact devPres_addObj _ _ rfl
  | false =>
    have he : (lib.CreateArtist d n g).dev =
        (Library.GetOrCreate d lib.musicFolder
          (if n = "" then UknownArtist else n)).2.1 := by
      simp [Library.CreateArtist, hs]
    rw [he]
    exact devPres_getOrCreate _ _ _

theorem getOrCreate_trace_some (d : Device) (p : Nat) (n : String) :
    ∀ e ∈ (Library.GetOrCreate d p n).2.2, e.2 ≠ none := by
  cases hfind : (d.assocChildren (some p)).find? (fun x => n = x.filename) with
  | some o =>
    rw [getOrCreate_found d p n o hfind]
    intro e he
    cases he
  | none =>
    rw [getOrCreate_missing d p n hfind]
    intro e he
    simp only [List.mem_singleton] at he
    subst he
    simp

theorem createArtist_trace_some (lib : Library) (d : Device) (n g : String) :
    ∀ e ∈ (lib.CreateArtist d n g).trace, e.2 ≠ none := by
  have he : (lib.CreateArtist d n g).trace =
      (Library.GetOrCreate d lib.musicFolder
        (if n = "" then UknownArtist else n)).2.2 := rfl
  rw [he]
  exact getOrCreate_trace_some _ _ _

theorem loadArtistStep_pres (mf : Nat) (mfs : List (String × Nat))
    (st : Library × Device × List DirEvent) (o : DevObject) :
    DevPres st.2.1 (loadArtistStep mf mfs st o).2.1 ∧
    (∀ e ∈ (loadArtistStep mf mfs st o).2.2, e ∈ st.2.2 ∨ e.2 ≠ none) := by
  unfold loadArtistStep
  cases hfv : findVal mfs o.name with
  | some i =>
    simp only [hfv]
    exact ⟨devPres_refl _, fun e he => Or.inl (by simpa using he)⟩
  | none =>
    simp only [hfv]
    refine ⟨devPres_addObj _ _ rfl, ?_⟩
    intro e he
    have he2 : e ∈ st.2.2 ∨ e = (o.name, some mf) := by simpa using he
    rcases he2 with he2 | he2
    · exact Or.inl he2
    · subst he2
      simp

theorem albumTrace_split {base tr1 tr2 : List DirEvent} {e : DirEvent}
    (he : e ∈ base ++ tr1 ++ tr2)
    (h1 : ∀ x ∈ tr1, x.2 ≠ none) (h2 : ∀ x ∈ tr2, x.2 ≠ none) :
    e ∈ base ∨ e.2 ≠ none := by
  rcases List.mem_append.1 he with h3 | h3
  · rcases List.mem_append.1 h3 with h4 | h4
    · exact Or.inl h4
    · exact Or.inr (h1 e h4)
  · exact Or.inr (h2 e h3)

theorem loadAlbumStep_pres
    (st : Library × Device × List DirEvent × List (Nat × List (String × Nat)))
    (o : DevObject) :
    DevPres st.2.1 (loadAlbumStep st o).2.1 ∧
    (∀ e ∈ (loadAlbumStep st o).2.2.1, e ∈ st.2.2.1 ∨ e.2 ≠ none) := by
  unfold loadAlbumStep
  cases har : st.1.GetArtist o.artistName with
  | some r =>
    simp only [har]
    cases hfc : findVal st.2.2.2 r with
    | some m =>
      simp only [hfc]
      cases hfm : findVal m o.name with
      | some i =>
        simp only [hfm]
        exact ⟨devPres_refl _, fun e he => Or.inl (by simpa using he)⟩
      | none =>
        simp only [hfm]
        refine ⟨devPres_addObj _ _ rfl, ?_⟩
        intro e he
        exact albumTrace_split he (by simp) (by simp)
    | none =>
      simp only [hfc]
      cases hfm : findVal (st.2.1.listAssociations
          (st.1.artistArena[r]?.getD {}).musicFolderId) o.name with
      | some i =>
        simp only [hfm]
        exact ⟨devPres_refl _, fun e he => Or.inl (by simpa using he)⟩
      | none =>
        simp only [hfm]
        refine ⟨devPres_addObj _ _ rfl, ?_⟩
        intro e he
        exact albumTrace_split he (by simp) (by simp)
  | none =>
    simp only [har]
    cases hfc : findVal st.2.2.2
        (st.1.CreateArtist st.2.1 o.artistName "").ref with
    | some m =>
      simp only [hfc]
      cases hfm : findVal m o.name with
      | some i =>
        simp only [hfm]
        refine ⟨devPres_createArtist _ _ _ _, ?_⟩
        intro e he
        exact albumTrace_split he (createArtist_trace_some _ _ _ _) (by simp)
      | none =>
        simp only [hfm]
        refine ⟨devPres_trans (devPres_createArtist _ _ _ _)
          (devPres_addObj _ _ rfl), ?_⟩
        intro e he
        exact albumTrace_split he (createArtist_trace_some _ _ _ _) (by simp)
    | none =>
      simp only [hfc]
      cases hfm : findVal
          ((st.1.CreateArtist st.2.1 o.artistName "").dev.listAssociations
            ((st.1.CreateArtist st.2.1 o.artistName
              "").lib.artistArena[(st.1.CreateArtist st.2.1 o.artistName
                "").ref]?.getD {}).musicFolderId) o.name with
      | some i =>
        simp only [hfm]
        refine ⟨devPres_createArtist _ _ _ _, ?_⟩
        intro e he
        exact albumTrace_split he (createArtist_trace_some _ _ _ _) (by simp)
      | none =>
        simp only [hfm]
        refine ⟨devPres_trans (devPres_createArtist _ _ _ _)
          (devPres_addObj _ _ rfl), ?_⟩
        intro e he
        exact albumTrace_split he (createArtist_trace_some _ _ _ _) (by simp)

theorem artistFold_pres (mf : Nat) (mfs : List (String × Nat)) :
    ∀ (objs : List DevObject) (st : Library × Device × List DirEvent),
      DevPres st.2.1 ((objs.foldl (loadArtistStep mf mfs) st)).2.1 ∧
      (∀ e ∈ (objs.foldl (loadArtistStep mf mfs) st).2.2,
        e ∈ st.2.2 ∨ e.2 ≠ none) := by
  intro objs
  induction objs with
  | nil => exact fun st => ⟨devPres_refl _, fun e he => Or.inl he⟩
  | cons o t ih =>
    intro st
    rw [List.foldl_cons]
    obtain ⟨hp1, ht1⟩ := loadArtistStep_pres mf mfs st o
    obtain ⟨hp2, ht2⟩ := ih (loadArtistStep mf mfs st o)
    refine ⟨devPres_trans hp1 hp2, ?_⟩
    intro e he
    rcases ht2 e he with h3 | h3
    · exact ht1 e h3
    · exact Or.inr h3

theorem albumFold_pres :
    ∀ (objs : List DevObject)
      (st : Library × Device × List DirEvent × List (Nat × List (String × Nat))),
      DevPres st.2.1 ((objs.foldl loadAlbumStep st)).2.1 ∧
      (∀ e ∈ (objs.foldl loadAlbumStep st).2.2.1,
        e ∈ st.2.2.1 ∨ e.2 ≠ none) := by
  intro objs
  induction objs with
  | nil => exact fun st => ⟨devPres_refl _, fun e he => Or.inl he⟩
  | cons o t ih =>
    intro st
    rw [List.foldl_cons]
    obtain ⟨hp1, ht1⟩ := loadAlbumStep_pres st o
    obtain ⟨hp2, ht2⟩ := ih (loadAlbumStep st o)
    refine ⟨devPres_trans hp1 hp2, ?_⟩
    intro e he
    rcases ht2 e he with h3 | h3
    · exact ht1 e h3
    · exact Or.inr h3

theorem scanRootStep_artists (acc : Nat × Nat × Nat) (a : String × Nat)
    (h : a.1 = "Artists") : scanRootStep acc a = (a.2, acc.2.1, acc.2.2) := by
  unfold scanRootStep
  rw [if_pos h]

theorem scanRootStep_albums (acc : Nat × Nat × Nat) (a : String × Nat)
    (h1 : a.1 ≠ "Artists") (h2 : a.1 = "Albums") :
    scanRootStep acc a = (acc.1, a.2, acc.2.2) := by
  unfold scanRootStep
  rw [if_neg h1, if_pos h2]

theorem scanRootStep_music (acc : Nat × Nat × Nat) (a : String × Nat)
    (h1 : a.1 ≠ "Artists") (h2 : a.1 ≠ "Albums") (h3 : a.1 = "Music") :
    scanRootStep acc a = (acc.1, acc.2.1, a.2) := by
  unfold scanRootStep
  rw [if_neg h1, if_neg h2, if_pos h3]

theorem scanRootStep_other (acc : Nat × Nat × Nat) (a : String × Nat)
    (h1 : a.1 ≠ "Artists") (h2 : a.1 ≠ "Albums") (h3 : a.1 ≠ "Music") :
    scanRootStep acc a = acc := by
  unfold scanRootStep
  rw [if_neg h1, if_neg h2, if_neg h3]

theorem scanRoot_artists (l : List (String × Nat))
    (hl : ∀ p ∈ l, p.2 ≠ 0) :
    ∀ acc : Nat × Nat × Nat,
      ((l.foldl scanRootStep acc).1 ≠ 0 ↔
        (∃ p ∈ l, p.1 = "Artists") ∨ acc.1 ≠ 0) := by
  induction l with
  | nil => intro acc; simp
  | cons a t ih =>
    intro acc
    have ha := hl a (by simp)
    have ih2 := ih (fun p hp => hl p (by simp [hp]))
    rw [List.foldl_cons]
    by_cases h1 : a.1 = "Artists"
    · rw [scanRootStep_artists acc a h1, ih2]
      simp [h1, ha]
    · by_cases h2 : a.1 = "Albums"
      · rw [scanRootStep_albums acc a h1 h2, ih2]
        simp [h1, h2]
      · by_cases h3 : a.1 = "Music"
        · rw [scanRootStep_music acc a h1 h2 h3, ih2]
          simp [h1, h2, h3]
        · rw [scanRootStep_other acc a h1 h2 h3, ih2]
          simp [h1, h2, h3]

theorem scanRoot_albums (l : List (String × Nat))
    (hl : ∀ p ∈ l, p.2 ≠ 0) :
    ∀ acc : Nat × Nat × Nat,
      ((l.foldl scanRootStep acc).2.1 ≠ 0 ↔
        (∃ p ∈ l, p.1 = "Albums") ∨ acc.2.1 ≠ 0) := by
  induction l with
  | nil => intro acc; simp
  | cons a t ih =>
    intro acc
    have ha := hl a (by simp)
    have ih2 := ih (fun p hp => hl p (by simp [hp]))
    rw [List.foldl_cons]
    by_cases h1 : a.1 = "Artists"
    · rw [scanRootStep_artists acc a h1, ih2]
      simp [h1]
    · by_cases h2 : a.1 = "Albums"
      · rw [scanRootStep_albums acc a h1 h2, ih2]
        simp [h1, h2, ha]
      · by_cases h3 : a.1 = "Music"
        · rw [scanRootStep_music acc a h1 h2 h3, ih2]
          simp [h1, h2, h3]
        · rw [scanRootStep_other acc a h1 h2 h3, ih2]
          simp [h1, h2, h3]

theorem scanRoot_music (l : List (String × Nat))
    (hl : ∀ p ∈ l, p.2 ≠ 0) :
    ∀ acc : Nat × Nat × Nat,
      ((l.foldl scanRootStep acc).2.2 ≠ 0 ↔
        (∃ p ∈ l, p.1 = "Music") ∨ acc.2.2 ≠ 0) := by
  induction l with
  | nil => intro acc; simp
  | cons a t ih =>
    intro acc
    have ha := hl a (by simp)
    have ih2 := ih (fun p hp => hl p (by simp [hp]))
    rw [List.foldl_cons]
    by_cases h1 : a.1 = "Artists"
    · rw [scanRootStep_artists acc a h1, ih2]
      simp [h1]
    · by_cases h2 : a.1 = "Albums"
      · rw [scanRootStep_albums acc a h1 h2, ih2]
        simp [h1, h2]
      · by_cases h3 : a.1 = "Music"
        · rw [scanRootStep_music acc a h1 h2 h3, ih2]
          simp [h1, h2, h3, ha]
        · rw [scanRootStep_other acc a h1 h2 h3, ih2]
          simp [h1, h2, h3]

theorem hasRootAssoc_iff (d : Device) (n : String) :
    d.hasRootAssoc n ↔ ∃ p ∈ d.rootAssocNames, p.1 = n := by
  simp only [Device.hasRootAssoc, Device.rootAssocNames, Device.assocChildren,
    List.mem_map, List.mem_filter]
  constructor
  · rintro ⟨o, ho, hp, hf, hn⟩
    exact ⟨(o.filename, o.id), ⟨o, ⟨ho, by simp [hp, hf]⟩, rfl⟩, hn⟩
  · rintro ⟨p, ⟨o, ⟨ho, hof⟩, rfl⟩, hn⟩
    have hof2 : o.parent = none ∧ o.format = DevFormat.assoc := by
      simpa using hof
    exact ⟨o, ho, hof2.1, hof2.2, hn⟩

theorem rootAssocNames_ids (d : Device) (hw : d.Wf) :
    ∀ p ∈ d.rootAssocNames, p.2 ≠ 0 := by
  intro p hp
  simp only [Device.rootAssocNames, Device.assocChildren, List.mem_map,
    List.mem_filter] at hp
  obtain ⟨o, ⟨ho, _⟩, rfl⟩ := hp
  have := hw.2.2 o ho
  omega

theorem hasRootAssoc_mono {d d' : Device} (hp : DevPres d d') (n : String)
    (h : d.hasRootAssoc n) : d'.hasRootAssoc n := by
  obtain ⟨⟨ex, hex⟩, _, _, _⟩ := hp
  obtain ⟨o, ho, h1, h2, h3⟩ := h
  exact ⟨o, by rw [hex]; exact List.mem_append_left _ ho, h1, h2, h3⟩

theorem hasRootAssoc_addObj_self (d : Device) (n : String) :
    (d.addObj
      { id := d.nextId, parent := none, format := DevFormat.assoc,
        filename := n, name := n }).hasRootAssoc n := by
  refine ⟨{ id := d.nextId, parent := none, format := DevFormat.assoc,
              filename := n, name := n }, ?_, rfl, rfl, rfl⟩
  simp [Device.addObj]

theorem mcr_pres (c : Bool) (cur : Nat) (d : Device) (n : String) :
    DevPres d (maybeCreateRoot c cur d n).2.1 := by
  cases c
  · exact devPres_refl d
  · exact devPres_addObj d _ rfl

theorem mcr_trace (c : Bool) (cur : Nat) (d : Device) (n : String) :
    (maybeCreateRoot c cur d n).2.2 =
      if c then [((n : String), (none : Option Nat))] else [] := by
  cases c <;> rfl

theorem mcr_has (c : Bool) (cur : Nat) (d : Device) (n : String)
    (h : c = true) : (maybeCreateRoot c cur d n).2.1.hasRootAssoc n := by
  subst h
  exact hasRootAssoc_addObj_self d n

theorem crf_pres (d0 : Device) :
    DevPres d0 (Library.createRootFolders d0).2.1 := by
  simp only [Library.createRootFolders]
  exact devPres_trans (mcr_pres _ _ _ _)
    (devPres_trans (mcr_pres _ _ _ _) (mcr_pres _ _ _ _))

theorem crf_trace_mem (d0 : Device) (n : String) :
    ((n, (none : Option Nat)) ∈ (Library.createRootFolders d0).2.2 ↔
      ((n = "Artists" ∧ d0.artistFormatSupported = true ∧ d0.rootScan.1 = 0) ∨
       (n = "Albums" ∧ d0.rootScan.2.1 = 0) ∨
       (n = "Music" ∧ d0.rootScan.2.2 = 0))) := by
  simp only [Library.createRootFolders, mcr_trace, List.mem_append]
  by_cases h1 : d0.artistFormatSupported = true
  · by_cases h2 : d0.rootScan.1 = 0
    · by_cases h3 : d0.rootScan.2.1 = 0
      · by_cases h4 : d0.rootScan.2.2 = 0 <;>
          simp [h1, h2, h3, h4, or_assoc]
      · by_cases h4 : d0.rootScan.2.2 = 0 <;>
          simp [h1, h2, h3, h4, or_assoc]
    · by_cases h3 : d0.rootScan.2.1 = 0
      · by_cases h4 : d0.rootScan.2.2 = 0 <;>
          simp [h1, h2, h3, h4, or_assoc]
      · by_cases h4 : d0.rootScan.2.2 = 0 <;>
          simp [h1, h2, h3, h4, or_assoc]
  · by_cases h3 : d0.rootScan.2.1 = 0
    · by_cases h4 : d0.rootScan.2.2 = 0 <;>
        simp [h1, h3, h4, Bool.not_eq_true, or_assoc]
    · by_cases h4 : d0.rootScan.2.2 = 0 <;>
        simp [h1, h3, h4, Bool.not_eq_true, or_assoc]

theorem scan_music_iff (d : Device) (hw : d.Wf) :
    d.rootScan.2.2 ≠ 0 ↔ d.hasRootAssoc "Music" := by
  rw [Device.rootScan, scanRoot_music _ (rootAssocNames_ids d hw) (0, 0, 0),
    hasRootAssoc_iff]
  simp

theorem scan_albums_iff (d : Device) (hw : d.Wf) :
    d.rootScan.2.1 ≠ 0 ↔ d.hasRootAssoc "Albums" := by
  rw [Device.rootScan, scanRoot_albums _ (rootAssocNames_ids d hw) (0, 0, 0),
    hasRootAssoc_iff]
  simp

theorem scan_artists_iff (d : Device) (hw : d.Wf) :
    d.rootScan.1 ≠ 0 ↔ d.hasRootAssoc "Artists" := by
  rw [Device.rootScan, scanRoot_artists _ (rootAssocNames_ids d hw) (0, 0, 0),
    hasRootAssoc_iff]
  simp

theorem crf_has_music (d0 : Device) (hw : d0.Wf) :
    (Library.createRootFolders d0).2.1.hasRootAssoc "Music" := by
  by_cases h : d0.rootScan.2.2 = 0
  · simp only [Library.createRootFolders]
    exact mcr_has _ _ _ _ (by simp [h])
  · exact hasRootAssoc_mono (crf_pres d0) _ ((scan_music_iff d0 hw).1 h)

theorem crf_has_albums (d0 : Device) (hw : d0.Wf) :
    (Library.createRootFolders d0).2.1.hasRootAssoc "Albums" := by
  by_cases h : d0.rootScan.2.1 = 0
  · simp only [Library.createRootFolders]
    exact hasRootAssoc_mono (mcr_pres _ _ _ _) _
      (mcr_has _ _ _ _ (by simp [h]))
  · exact hasRootAssoc_mono (crf_pres d0) _ ((scan_albums_iff d0 hw).1 h)

theorem crf_has_artists (d0 : Device) (hw : d0.Wf)
    (hs : d0.artistFormatSupported = true) :
    (Library.createRootFolders d0).2.1.hasRootAssoc "Artists" := by
  by_cases h : d0.rootScan.1 = 0
  · simp only [Library.createRootFolders]
    exact hasRootAssoc_mono (mcr_pres _ _ _ _) _
      (hasRootAssoc_mono (mcr_pres _ _ _ _) _
        (mcr_has _ _ _ _ (by simp [hs, h])))
  · exact hasRootAssoc_mono (crf_pres d0) _ ((scan_artists_iff d0 hw).1 h)

theorem constructCore_trace_mem (d : Device) (n : String) :
    ((n, (none : Option Nat)) ∈ (Library.constructCore d).trace ↔
      (n, (none : Option Nat)) ∈ (Library.createRootFolders d).2.2) := by
  simp only [Library.constructCore]
  constructor
  · intro hmem
    rcases List.mem_append.1 hmem with h3 | h3
    · rcases List.mem_append.1 h3 with h4 | h4
      · exact h4
      · exfalso
        rcases (artistFold_pres _ _ _ _).2 _ h4 with h5 | h5
        · cases h5
        · exact h5 rfl
    · exfalso
      rcases (albumFold_pres _ _).2 _ h3 with h5 | h5
      · cases h5
      · exact h5 rfl
  · intro hmem
    exact List.mem_append_left _ (List.mem_append_left _ hmem)

theorem constructCore_dev_pres2 (d : Device) :
    DevPres (Library.createRootFolders d).2.1 (Library.constructCore d).dev := by
  simp only [Library.constructCore]
  exact devPres_trans (artistFold_pres _ _ _ _).1 (albumFold_pres _ _).1

theorem constructCore_dev_pres (d : Device) :
    DevPres d (Library.constructCore d).dev :=
  devPres_trans (crf_pres d) (constructCore_dev_pres2 d)

/-- C7 counterexample: on a fresh device that does not support artist
objects, no `Artists` association exists at root and yet construction
issues no `CreateDirectory("Artists", root)`, contradicting the claim that
each of the three folders is created exactly when absent. -/
theorem c7_counterexample :
    ¬ c7Dev.hasRootAssoc "Artists" ∧
    ("Artists", (none : Option Nat)) ∉ (Library.constructCore c7Dev).trace := by
  refine ⟨?_, by decide⟩
  rintro ⟨o, ho, -⟩
  simp [c7Dev] at ho

/-- C7 amended: construction creates `Music` and `Albums` at root exactly
when no association of that name exists there, and `Artists` exactly when
absent and the device supports artist objects; a second construction
against the resulting device state issues no root `CreateDirectory` for any
of the three names. -/
theorem c7_construct (d : Device) (hw : d.Wf) : C7Post d := by
  have hw2 : (Library.constructCore d).dev.Wf :=
    (constructCore_dev_pres d).2.2.2 hw
  have hsup2 : (Library.constructCore d).dev.artistFormatSupported =
      d.artistFormatSupported := (constructCore_dev_pres d).2.1
  refine ⟨?_, ?_, ?_, ?_, ?_⟩
  · unfold Library.construct
    rw [if_neg hw.1]
  · rw [constructCore_trace_mem d, crf_trace_mem d "Music"]
    rw [← scan_music_iff d hw]
    simp
  · rw [constructCore_trace_mem d, crf_trace_mem d "Albums"]
    rw [← scan_albums_iff d hw]
    simp
  · rw [constructCore_trace_mem d, crf_trace_mem d "Artists"]
    rw [← scan_artists_iff d hw]
    simp
  · intro n hn hmem
    rw [constructCore_trace_mem _, crf_trace_mem _ n] at hmem
    rcases hn with rfl | rfl | rfl
    · have hh : (Library.constructCore d).dev.hasRootAssoc "Music" :=
        hasRootAssoc_mono (constructCore_dev_pres2 d) _ (crf_has_music d hw)
      have hne := (scan_music_iff _ hw2).2 hh
      simp [hne] at hmem
    · have hh : (Library.constructCore d).dev.hasRootAssoc "Albums" :=
        hasRootAssoc_mono (constructCore_dev_pres2 d) _ (crf_has_albums d hw)
      have hne := (scan_albums_iff _ hw2).2 hh
      simp [hne] at hmem
    · simp only [] at hmem
      rcases hmem with ⟨_, hsup, hsc⟩ | ⟨hne, _⟩ | ⟨hne, _⟩
      · have hsupd : d.artistFormatSupported = true := by
          rw [← hsup2]
          exact hsup
        have hh : (Library.constructCore d).dev.hasRootAssoc "Artists" :=
          hasRootAssoc_mono (constructCore_dev_pres2 d) _
            (crf_has_artists d hw hsupd)
        exact (scan_artists_iff _ hw2).2 hh hsc
      · exact absurd hne (by decide)
      · exact absurd hne (by decide)


theorem c7_construct_w : Device.Wf c7Dev ∧ C7Post c7Dev :=
  ⟨by decide, c7_construct c7Dev (by decide)⟩

end AFTL

